import Mathlib

/-!
Shallow embedding of the pgwal-client repository (a Postgres WAL
change-data-capture relay) and proofs about its orchestrator, consumer
and publisher layers.

Python sources embedded here:
  * `pgwal/app.py`          — the `PGWAL` orchestrator
  * `pgwal/consumers.py`    — the `WALConsumer` polling loop
  * `pgwal/publishers/…`    — `BasePublisher`, `ShellPublisher`, `KafkaPublisher`
  * `pgwal/publishers.py`   — `RabbitPublisher`
  * `lib/src/pgwal/interface.py` — `WALReplicationOpts` field validators

The global `EXIT` object (module `pgwal.events`, a `threading.Event`,
the spec's CancellationSignal) is modelled as a boolean flag threaded
through the state; `set` / `clear` / `is_set` become writes and reads of
that flag.  External collaborators (psycopg2 cursors, the Kafka producer
client, the pika connection/channel) are modelled as explicit state with
the primitive operations the code invokes on them.
-/

/- ## Orchestrator: `PGWAL` (pgwal/app.py) -/

/-- State touched by the `PGWAL` orchestrator in `app.py`.
`exitSet` is the global `EXIT` event; `poolCreated` models
`self._pool is not None`, `poolClosed` models `self._pool.closed`;
publishers are identified by numeric ids, `publishers` is the
`self.publishers` list and `stopCalls` records, in order, every
`publisher.stop()` invocation made by the orchestrator; `tasks` counts
the worker-thread descriptors in `self.tasks`; `sleeps` counts
`time.sleep` calls (the `finally` block). -/
structure PGWALState where
  exitSet : Bool
  poolCreated : Bool
  poolClosed : Bool
  tasks : Nat
  publishers : List Nat
  stopCalls : List Nat
  sleeps : Nat
  deriving DecidableEq, Repr

/-- `PGWAL.close_pool`: `if self._pool is not None and not self._pool.closed:
self._pool.closeall()`. -/
def PGWAL.close_pool (s : PGWALState) : PGWALState :=
  if s.poolCreated && !s.poolClosed then { s with poolClosed := true } else s

/-- `PGWAL.stop_publishers`: `for publisher in self.publishers: publisher.stop()`. -/
def PGWAL.stop_publishers (s : PGWALState) : PGWALState :=
  { s with stopCalls := s.stopCalls ++ s.publishers }

/-- `PGWAL.consume(consumer)`: appends a thread descriptor to `self.tasks`
and extends `self.publishers` with `consumer.publishers` (plain
`list.extend`, no de-duplication).  `consumerPubs` is the registered
consumer's publisher list. -/
def PGWAL.consume (s : PGWALState) (consumerPubs : List Nat) : PGWALState :=
  { s with tasks := s.tasks + 1, publishers := s.publishers ++ consumerPubs }

/-- `PGWAL.run`: sets `EXIT`, then
```
try:     _start(); _wait()
except (KeyboardInterrupt, Exception):
         EXIT.clear(); self.close_pool(); self.stop_publishers()
finally: time.sleep(1.0)
```
`raises` says whether `_start()`/`_wait()` raised into the main thread
(e.g. a `KeyboardInterrupt` during the joins); when the joins return
normally the `except` block is skipped and only the `finally` sleep
runs. -/
def PGWAL.run (s : PGWALState) (raises : Bool) : PGWALState :=
  let s1 := { s with exitSet := true }
  let s2 :=
    if raises then
      PGWAL.stop_publishers (PGWAL.close_pool { s1 with exitSet := false })
    else s1
  { s2 with sleeps := s2.sleeps + 1 }

/-- A concrete orchestrator state for claim C1: pool created and open,
one registered worker whose consumer carries publisher `0`, no stop
calls made yet. -/
def c1State : PGWALState :=
  { exitSet := false, poolCreated := true, poolClosed := false,
    tasks := 1, publishers := [0], stopCalls := [], sleeps := 0 }

/-- A fresh orchestrator state for claim C5. -/
def c5State : PGWALState :=
  { exitSet := false, poolCreated := false, poolClosed := false,
    tasks := 0, publishers := [], stopCalls := [], sleeps := 0 }

/- ## Consumer: `WALConsumer` (pgwal/consumers.py) -/

/-- Exceptions of the embedded Python fragments. -/
inductive PyError where
  | attributeError
  | interruptedError
  deriving DecidableEq, Repr

/-- The `WALConsumer` object as built by `__init__`: the replication
slot name, the attached publisher list (publishers identified by ids;
the replication options are irrelevant to the consumer's control flow)
and the `_consuming` flag.  The class has no create-on-demand field of
any kind. -/
structure WALConsumer where
  replication_slot : String
  publishers : List Nat
  consuming : Bool
  deriving DecidableEq, Repr

/-- Behaviour of the collaborator call `cursor.start_replication(...)`:
it succeeds, or raises `psycopg2.OperationalError` (e.g. replication
already started on this cursor, per the warning the code logs for it),
or raises `psycopg2.errors.UndefinedObject` — the missing-replication-slot
failure, SQLSTATE 42704, a `ProgrammingError` subclass and *not* an
`OperationalError`. -/
inductive CursorStartBehavior where
  | ok
  | operationalError
  | undefinedObject
  deriving DecidableEq, Repr

/-- Observable outcome of one `WALConsumer.start_replication` call:
how many `cursor.start_replication` attempts were made, how many
`create_replication_slot` calls were made, whether a warning was
logged, and whether an exception propagated to the caller. -/
structure StartOutcome where
  startAttempts : Nat
  slotCreates : Nat
  warned : Bool
  raisedToCaller : Bool
  deriving DecidableEq, Repr

/-- `WALConsumer.start_replication`: a single
`cursor.start_replication(...)` call wrapped in
`try/except psycopg2.OperationalError`.  An `OperationalError` is caught
and a warning logged (`'Replication Slot %s has already started on this
cursor'`), and the method returns normally; the missing-slot
`UndefinedObject` failure is a `ProgrammingError`, which the except
clause does not match, so it propagates to the caller uncaught.  No slot
is ever created and nothing is retried on any path. -/
def WALConsumer.start_replication (_c : WALConsumer) (b : CursorStartBehavior) :
    StartOutcome :=
  match b with
  | .ok =>
    { startAttempts := 1, slotCreates := 0, warned := false, raisedToCaller := false }
  | .operationalError =>
    { startAttempts := 1, slotCreates := 0, warned := true, raisedToCaller := false }
  | .undefinedObject =>
    { startAttempts := 1, slotCreates := 0, warned := false, raisedToCaller := true }

/-- A replication message: its position marker (`data_start`) and
decoded payload. -/
structure ReplMsg where
  data_start : Nat
  payload : String
  deriving DecidableEq, Repr

/-- The replication cursor as the consumer loop sees it: the stream of
messages still pending upstream and the `closed` flag. -/
structure Cursor where
  pending : List ReplMsg
  closed : Bool
  deriving DecidableEq, Repr

/-- Calls the consumer makes against publishers and the cursor, in
program order. -/
inductive TraceEv where
  | publishCall (publisherId : Nat) (m : ReplMsg)
  | feedback (flushLsn : Nat)
  deriving DecidableEq, Repr

/-- `WALConsumer._consume(msg)`: `for publisher in self.publishers:
publisher.publish(msg)` — in list order — followed by one
`msg.cursor.send_feedback(flush_lsn=msg.data_start)`.  Returns the
sequence of calls made. -/
def WALConsumer._consume (pubs : List Nat) (m : ReplMsg) : List TraceEv :=
  pubs.map (fun i => TraceEv.publishCall i m) ++ [TraceEv.feedback m.data_start]

/-- `cursor.read_message()`: pop the next pending message, if any. -/
def Cursor.read_message (c : Cursor) : Option ReplMsg × Cursor :=
  match c.pending with
  | [] => (none, c)
  | m :: rest => (some m, { c with pending := rest })

/-- `WALConsumer._msg_n_consumed`: read one message; if there is none
return `False`, otherwise consume it via `_consume` and return `True`.
The middle component is the list of calls made. -/
def WALConsumer._msg_n_consumed (pubs : List Nat) (c : Cursor) :
    Bool × List TraceEv × Cursor :=
  match Cursor.read_message c with
  | (none, c') => (false, [], c')
  | (some m, c') => (true, WALConsumer._consume pubs m, c')

/-- The `while True` loop of `WALConsumer.consume_async`, with explicit
fuel.  `exitSet` is `EXIT.is_set()`: when the signal is cleared the loop
stops the consumer and breaks; when the cursor is closed it returns;
otherwise `_msg_n_consumed` either consumes the pending message and the
loop `continue`s, or there was no message and the loop calls
`_wait_on_repl_cursor` — which makes no publisher/feedback calls — and
iterates.  (The `set_consuming` bookkeeping mutates only the consumer's
own flag and is elided from the call trace.) -/
def WALConsumer.consumeAsyncLoop (pubs : List Nat) (exitSet : Bool) :
    Nat → Cursor → List TraceEv
  | 0, _ => []
  | fuel + 1, c =>
    if !exitSet then []
    else if c.closed then []
    else
      match WALConsumer._msg_n_consumed pubs c with
      | (true, evs, c') => evs ++ WALConsumer.consumeAsyncLoop pubs exitSet fuel c'
      | (false, _, c') => WALConsumer.consumeAsyncLoop pubs exitSet fuel c'

/-- `WALConsumer._STATUS_INTERVAL = 10.0` (seconds). -/
def WALConsumer.STATUS_INTERVAL : ℚ := 10

/-- `WALConsumer._get_cur_timeout`: `self._STATUS_INTERVAL -
(datetime.now() - cursor.feedback_timestamp).total_seconds()`.
`now` and `feedbackTimestamp` are timestamps in seconds. -/
def WALConsumer._get_cur_timeout (now feedbackTimestamp : ℚ) : ℚ :=
  WALConsumer.STATUS_INTERVAL - (now - feedbackTimestamp)

/-- Python `int(...)` applied to a (real-valued) duration: truncation
toward zero. -/
def pyInt (q : ℚ) : Int := if 0 ≤ q then ⌊q⌋ else ⌈q⌉

/-- What happens during one `select([cursor], [], [], t)` call. -/
inductive WaitEvent where
  | dataReady
  | timedOut
  | interruptedSignal
  deriving DecidableEq, Repr

/-- The collaborator `select` call: returns the ready list, or raises
`InterruptedError` when a signal interrupts the wait. -/
def selectCall (e : WaitEvent) : Except PyError (List Unit) :=
  match e with
  | .dataReady => .ok [()]
  | .timedOut => .ok []
  | .interruptedSignal => .error .interruptedError

/-- `WALConsumer._wait_on_repl_cursor`: computes
`timeout = self._get_cur_timeout(cursor)` and calls
`select([cursor], [], [], max(0, int(timeout)))`, swallowing
`InterruptedError` (`except InterruptedError: pass`); any other
exception would propagate.  Returns the timeout value handed to
`select` together with the call's outcome. -/
def WALConsumer._wait_on_repl_cursor (now feedbackTimestamp : ℚ) (e : WaitEvent) :
    Int × Except PyError Unit :=
  (max 0 (pyInt (WALConsumer._get_cur_timeout now feedbackTimestamp)),
   match selectCall e with
   | .ok _ => .ok ()
   | .error .interruptedError => .ok ()
   | .error err => .error err)


/- ## Publishers (pgwal/publishers/base.py, shell.py, kafka.py and pgwal/publishers.py) -/

/-- `ShellPublisher` (pgwal/publishers/shell.py): its only state is the
inherited `_running` flag, overridden to `True` at class level ("this is
always running").  `publish` logs synchronously; `run` and `stop` are
`pass`. -/
structure ShellPublisher where
  running : Bool := true
  deriving DecidableEq, Repr

/-- `ShellPublisher.stop` is `pass`. -/
def ShellPublisher.stop (p : ShellPublisher) : ShellPublisher := p

/-- The external `KafkaProducer` client (kafka-python) as the code uses
it: `send(topic, message)` records a delivery, `flush()` and `close()`
set the corresponding flags. -/
structure KafkaProducer where
  delivered : List (String × String)
  flushed : Bool
  closed : Bool
  deriving DecidableEq, Repr

/-- `KafkaPublisher` instance state (pgwal/publishers/kafka.py): the
`destination` topic, the lazily created `_producer` (`None` until the
`producer` cached property is first evaluated), the `_sent` counter and
the `_running` flag (the class holds a real `threading.Lock`, so
`set_running` does mutate).  The message queue is deliberately *not*
here: `_MSG_QUEUE = SimpleQueue()` is evaluated once at class-definition
time and lives on the class, see `KafkaClassAttrs`. -/
structure KafkaPublisher where
  destination : String
  producer : Option KafkaProducer
  sent : Nat
  running : Bool
  deriving DecidableEq, Repr

/-- `KafkaPublisher.__init__(destination, **config)`. -/
def KafkaPublisher.init (destination : String) : KafkaPublisher :=
  { destination := destination, producer := none, sent := 0, running := false }

/-- Class-level attributes of `KafkaPublisher`: exactly one
`_MSG_QUEUE` per class, shared by every instance (`self.msg_queue`
returns `self._MSG_QUEUE`, and attribute lookup on the instance falls
through to the class attribute since no instance ever assigns it). -/
structure KafkaClassAttrs where
  _MSG_QUEUE : List String
  deriving DecidableEq, Repr

/-- `BasePublisher.set_running` under the class lock. -/
def KafkaPublisher.set_running (p : KafkaPublisher) (value : Bool) : KafkaPublisher :=
  { p with running := value }

/-- Daemon worker threads spawned so far by `run_publisher_daemon`. -/
structure ThreadWorld where
  spawned : Nat
  deriving DecidableEq, Repr

/-- `run_publisher_daemon(publisher)`: starts one new daemon thread
targeting `publisher.run`. -/
def run_publisher_daemon (w : ThreadWorld) : ThreadWorld :=
  { w with spawned := w.spawned + 1 }

/-- The `ensure_running` decorator (pgwal/publishers/base.py; an
identical copy guards `RabbitPublisher.publish` in pgwal/publishers.py):
`if publisher.is_running(): return func(...)`, otherwise
`run_publisher_daemon(publisher)` first and then `func(...)`.
`running` is `publisher.is_running()`; the result is the thread world
after the spawn decision. -/
def ensure_running (w : ThreadWorld) (running : Bool) : ThreadWorld :=
  if running then w else run_publisher_daemon w

/-- `KafkaPublisher.publish` (guarded by `@ensure_running`):
`self.msg_queue.put_nowait(msg.payload)` — a non-blocking put of the
payload onto the class-level queue.  The instance (producer included)
is untouched and no network call happens. -/
def KafkaPublisher.publish (w : ThreadWorld) (cls : KafkaClassAttrs)
    (p : KafkaPublisher) (payload : String) :
    ThreadWorld × KafkaClassAttrs × KafkaPublisher :=
  (ensure_running w p.running,
   { cls with _MSG_QUEUE := cls._MSG_QUEUE ++ [payload] },
   p)

/-- The `producer` cached property: `self._producer = self._producer or
KafkaProducer(**self._kafka_config)`. -/
def KafkaPublisher.producerGet (p : KafkaPublisher) : KafkaProducer × KafkaPublisher :=
  match p.producer with
  | some pr => (pr, p)
  | none =>
    let pr : KafkaProducer := { delivered := [], flushed := false, closed := false }
    (pr, { p with producer := some pr })

/-- `KafkaPublisher.publish_message(message)`:
`self.producer.send(self.destination, message)` then `self._sent += 1`. -/
def KafkaPublisher.publish_message (p : KafkaPublisher) (message : String) :
    KafkaPublisher :=
  let (pr, p') := KafkaPublisher.producerGet p
  { p' with
      producer :=
        some { pr with delivered := pr.delivered ++ [(p'.destination, message)] },
      sent := p'.sent + 1 }

/-- `MsgQueueMixin._get_message`: `self.msg_queue.get_nowait()`, `None`
on `Empty`.  (The JSON re-encoding of non-string payloads does not arise
for the string payloads modelled here.) -/
def KafkaPublisher._get_message (cls : KafkaClassAttrs) :
    Option String × KafkaClassAttrs :=
  match cls._MSG_QUEUE with
  | [] => (none, cls)
  | m :: rest => (some m, { cls with _MSG_QUEUE := rest })

/-- The `while True` body of `KafkaPublisher.run`, with explicit fuel.
Each iteration reads `EXIT.is_set()` (`exitAt i` is the value seen at
the `i`-th check) and `break`s when the signal is cleared — *without*
touching `_running`; otherwise it pops a message from the class-level
queue: on `None` it logs, sleeps `_PUBLISH_INTERVAL` and continues, else
it delivers via `publish_message`. -/
def KafkaPublisher.runLoop (exitAt : Nat → Bool) :
    Nat → Nat → KafkaClassAttrs → KafkaPublisher → KafkaClassAttrs × KafkaPublisher
  | 0, _, cls, p => (cls, p)
  | fuel + 1, i, cls, p =>
    if !(exitAt i) then (cls, p)
    else
      match KafkaPublisher._get_message cls with
      | (none, cls') => KafkaPublisher.runLoop exitAt fuel (i + 1) cls' p
      | (some m, cls') =>
        KafkaPublisher.runLoop exitAt fuel (i + 1) cls'
          (KafkaPublisher.publish_message p m)

/-- `KafkaPublisher.run`: `self.set_running(True)` and then the loop. -/
def KafkaPublisher.run (exitAt : Nat → Bool) (fuel : Nat)
    (cls : KafkaClassAttrs) (p : KafkaPublisher) :
    KafkaClassAttrs × KafkaPublisher :=
  KafkaPublisher.runLoop exitAt fuel 0 cls (KafkaPublisher.set_running p true)

/-- `KafkaPublisher.stop`: `self.set_running(False)`, then `self.flush()`
— which evaluates `self._producer.flush(timeout)` on the *raw*
`_producer` attribute — and `self._producer.close()`.  When no producer
has ever been created (`_producer is None`), `None.flush` raises
`AttributeError`, after the running flag has already been cleared. -/
def KafkaPublisher.stop (p : KafkaPublisher) : KafkaPublisher × Option PyError :=
  let p1 := KafkaPublisher.set_running p false
  match p1.producer with
  | none => (p1, some PyError.attributeError)
  | some pr =>
    ({ p1 with producer := some { pr with flushed := true, closed := true } }, none)

/-- A never-started `KafkaPublisher` for claim C3: constructed, never
run, never published through. -/
def c3FreshKafka : KafkaPublisher := KafkaPublisher.init "wal-topic"

/-- The pika channel as the code touches it: `is_open`/`is_closing`
state plus the `basic_publish` calls accepted so far (exchange,
routing key, message).  `close()` moves an open channel to CLOSING:
`is_open` becomes false, `is_closing` true. -/
structure PikaChannel where
  isOpen : Bool
  isClosing : Bool
  published : List (String × String × String)
  deriving DecidableEq, Repr

/-- The pika connection as the code touches it; `close()` moves an open
connection to CLOSING. -/
structure PikaConnection where
  isOpen : Bool
  isClosing : Bool
  deriving DecidableEq, Repr

/-- `RabbitPublisher` instance state (pgwal/publishers.py): the
connection and channel handles (`None` until `run`/pika callbacks set
them), the destination descriptor (`_exchange`, `_routing_key`), the
delivery-accounting counters (set to `None` in `__init__` and reset to
zero by `run`; held here as numbers since only `run`'s loop uses them),
the `_stopping` flag and the inherited `_running` flag.  As with Kafka,
`_MSG_QUEUE` is a class attribute (`RabbitClassAttrs`), not instance
state. -/
structure RabbitPublisher where
  exchange : String
  routingKey : String
  connection : Option PikaConnection
  channel : Option PikaChannel
  deliveries : List Nat
  acked : Nat
  nacked : Nat
  messageNumber : Nat
  stopping : Bool
  running : Bool
  deriving DecidableEq, Repr

/-- Class-level attributes of `RabbitPublisher`: the single, class-wide
`_MSG_QUEUE = SimpleQueue()`. -/
structure RabbitClassAttrs where
  _MSG_QUEUE : List String
  deriving DecidableEq, Repr

/-- `RabbitPublisher.close_channel`: `if self._channel is not None and
self._channel.is_open:` warn when already closing, else
`self._channel.close()`. -/
def RabbitPublisher.close_channel (p : RabbitPublisher) : RabbitPublisher :=
  match p.channel with
  | none => p
  | some ch =>
    if ch.isOpen then
      if ch.isClosing then p
      else { p with channel := some { ch with isOpen := false, isClosing := true } }
    else p

/-- `RabbitPublisher.close_connection`, same pattern on `_connection`. -/
def RabbitPublisher.close_connection (p : RabbitPublisher) : RabbitPublisher :=
  match p.connection with
  | none => p
  | some conn =>
    if conn.isOpen then
      if conn.isClosing then p
      else { p with connection := some { conn with isOpen := false, isClosing := true } }
    else p

/-- `RabbitPublisher.stop`: `self.set_running(False)`,
`self._stopping = True`, `self.close_channel()`,
`self.close_connection()`. -/
def RabbitPublisher.stop (p : RabbitPublisher) : RabbitPublisher :=
  RabbitPublisher.close_connection
    (RabbitPublisher.close_channel { p with running := false, stopping := true })

/-- `RabbitPublisher.publish` (guarded by its own `ensure_running`):
`self._MSG_QUEUE.put_nowait(msg.payload)` — non-blocking put onto the
class-level queue; instance and network untouched. -/
def RabbitPublisher.publish (w : ThreadWorld) (cls : RabbitClassAttrs)
    (p : RabbitPublisher) (payload : String) :
    ThreadWorld × RabbitClassAttrs × RabbitPublisher :=
  (ensure_running w p.running,
   { cls with _MSG_QUEUE := cls._MSG_QUEUE ++ [payload] },
   p)

/-- `RabbitPublisher._get_message`: `self._MSG_QUEUE.get_nowait()`,
`None` on `Empty`. -/
def RabbitPublisher._get_message (cls : RabbitClassAttrs) :
    Option String × RabbitClassAttrs :=
  match cls._MSG_QUEUE with
  | [] => (none, cls)
  | m :: rest => (some m, { cls with _MSG_QUEUE := rest })

/-- `RabbitPublisher.publish_message`: return unless the channel is open;
otherwise pop one message from the class-level queue and, if there is
one, `self._channel.basic_publish(self._exchange, self._routing_key,
message, properties)`, incrementing `_message_number` and recording the
delivery; then (in every case) `schedule_next_message()`. -/
def RabbitPublisher.publish_message (cls : RabbitClassAttrs) (p : RabbitPublisher) :
    RabbitClassAttrs × RabbitPublisher :=
  match p.channel with
  | none => (cls, p)
  | some ch =>
    if ch.isOpen then
      match RabbitPublisher._get_message cls with
      | (none, cls') => (cls', p)
      | (some m, cls') =>
        (cls',
         { p with
             channel :=
               some { ch with
                        published := ch.published ++ [(p.exchange, p.routingKey, m)] },
             messageNumber := p.messageNumber + 1,
             deliveries := p.deliveries ++ [p.messageNumber + 1] })
    else (cls, p)

/- ## Configuration validators (lib/src/pgwal/interface.py) -/

/-- The `WALReplicationValues` string enum. -/
inductive WALReplicationValues where
  | zero
  | one
  | two
  | nil
  | insert
  | update
  | delete
  | truncate
  deriving DecidableEq, Repr

/-- The string value of each `WALReplicationValues` member. -/
def WALReplicationValues.val : WALReplicationValues → String
  | .zero => "0"
  | .one => "1"
  | .two => "2"
  | .nil => ""
  | .insert => "insert"
  | .update => "update"
  | .delete => "delete"
  | .truncate => "truncate"

/-- `WALReplicationValues(s)`: look the string up among the member
values; a string that is no member's value raises `ValueError`, which
pydantic surfaces as a validation error. -/
def WALReplicationValues.ofString (s : String) : Option WALReplicationValues :=
  if s = "0" then some .zero
  else if s = "1" then some .one
  else if s = "2" then some .two
  else if s = "" then some .nil
  else if s = "insert" then some .insert
  else if s = "update" then some .update
  else if s = "delete" then some .delete
  else if s = "truncate" then some .truncate
  else none

/-- `_WALReplicationActions` (also the default of the `actions`
field). -/
def _WALReplicationActions : List WALReplicationValues :=
  [.insert, .update, .delete, .truncate]

/-- The element strings of a comma-separated `actions` value:
`value.strip().split(',')`, each element then `.strip()`-ed before the
enum lookup. -/
def actionPieces (value : String) : List String :=
  (value.trim.splitOn ",").map String.trim

/-- The comprehension `[WALReplicationValues(v.strip()) for v in …]`:
convert each element string in order, failing on the first string that
is not a member value (Python raises `ValueError` there). -/
def parseActions : List String → Option (List WALReplicationValues)
  | [] => some []
  | piece :: rest =>
    match WALReplicationValues.ofString piece, parseActions rest with
    | some a, some as => some (a :: as)
    | _, _ => none

/-- `WALReplicationOpts.validate_actions`.  The input has the field's
annotated type `List[WALReplicationValues] | str`.  A string is split on
commas and each trimmed element converted with
`WALReplicationValues(v.strip())` (an unknown value raises
`ValueError`); the members so obtained — or the list given directly —
must all lie in `_WALReplicationActions`, else
`InvalidReplicationAction` is raised; on success the comma-joined string
`', '.join(value)` is returned. -/
def WALReplicationOpts.validate_actions
    (value : List WALReplicationValues ⊕ String) : Except String String :=
  match value with
  | .inl vs =>
    if vs.all (fun a => decide (a ∈ _WALReplicationActions)) then
      Except.ok (String.intercalate ", " (vs.map WALReplicationValues.val))
    else Except.error "InvalidReplicationAction"
  | .inr s =>
    match parseActions (actionPieces s) with
    | none => Except.error "ValueError"
    | some vs =>
      if vs.all (fun a => decide (a ∈ _WALReplicationActions)) then
        Except.ok (String.intercalate ", " (vs.map WALReplicationValues.val))
      else Except.error "InvalidReplicationAction"

/-- `WALReplicationOpts.validate_format_version`: the value must be
`'1'` or `'2'`, else `ValueError`. -/
def WALReplicationOpts.validate_format_version (v : WALReplicationValues) :
    Except String WALReplicationValues :=
  if v = WALReplicationValues.one ∨ v = WALReplicationValues.two then Except.ok v
  else Except.error "format-version expects one of two values"

/-- A shell publisher instance (always running). -/
def c3Shell : ShellPublisher := { running := true }

/-- A fresh `RabbitPublisher` straight out of `__init__`. -/
def c3Rabbit : RabbitPublisher :=
  { exchange := "events", routingKey := "wal", connection := none, channel := none,
    deliveries := [], acked := 0, nacked := 0, messageNumber := 0,
    stopping := false, running := false }

/-- A Kafka producer instance as first created by the cached property. -/
def c3Producer : KafkaProducer := { delivered := [], flushed := false, closed := false }

/-- A `KafkaPublisher` whose worker has run: producer created, running. -/
def c3StartedKafka : KafkaPublisher :=
  { destination := "wal-topic", producer := some c3Producer, sent := 0, running := true }

/- ## Theorems -/

/-- **C1 (counterexample).** The claim requires that on *every* exit path
of `PGWAL.run` — in particular when all worker threads complete normally
and the joins return without raising — the `EXIT` signal is cleared, the
pool is closed and `stop()` is called on every registered publisher.  On
the normal-return path (`raises = false`) none of that happens: the
signal is still set, the pool still open, and publisher `0` was never
stopped. -/
theorem c1_normal_exit_skips_cleanup :
    ¬ ((PGWAL.run c1State false).exitSet = false ∧
       (PGWAL.run c1State false).poolClosed = true ∧
       0 ∈ (PGWAL.run c1State false).stopCalls) := by
  decide

/-- **C1 (amended).** The teardown sequence of `PGWAL.run` — clear
`EXIT`, close the pool, stop every registered publisher — executes
exactly on the exception exit path (when `_start`/`_wait` raises into
`run`); when the joins return normally, `run` returns with `EXIT` still
set, the pool untouched and no publisher stopped.  Only the `finally`
sleep runs on both paths. -/
theorem c1_cleanup_only_on_exception (s : PGWALState) :
    ((PGWAL.run s true).exitSet = false ∧
     (PGWAL.run s true).poolClosed = (s.poolClosed || s.poolCreated) ∧
     (PGWAL.run s true).stopCalls = s.stopCalls ++ s.publishers) ∧
    ((PGWAL.run s false).exitSet = true ∧
     (PGWAL.run s false).poolClosed = s.poolClosed ∧
     (PGWAL.run s false).stopCalls = s.stopCalls) ∧
    (PGWAL.run s true).sleeps = s.sleeps + 1 ∧
    (PGWAL.run s false).sleeps = s.sleeps + 1 := by
  unfold PGWAL.run PGWAL.stop_publishers PGWAL.close_pool
  cases hc : s.poolCreated <;> cases hd : s.poolClosed <;> simp [hc, hd]

/-- **C5 (counterexample).** Registering two consumers that share the
same publisher instance (id `7`) leaves that publisher recorded *twice*
in the orchestrator's shutdown list, and shutdown calls `stop()` on it
twice — refuting the claim that the recorded publishers are
de-duplicated and stopped once per distinct publisher. -/
theorem c5_shared_publisher_recorded_twice :
    ¬ (((PGWAL.consume (PGWAL.consume c5State [7]) [7]).publishers.count 7 = 1) ∧
       ((PGWAL.stop_publishers
          (PGWAL.consume (PGWAL.consume c5State [7]) [7])).stopCalls.count 7 = 1)) := by
  decide

/-- **C5 (amended).** `PGWAL.consume` appends the consumer's publisher
list to `self.publishers` with plain `extend` and *no* de-duplication:
after any registrations the recorded list is the concatenation of the
registered consumers' publisher lists, a publisher occurring in several
lists occurs that many times, and `stop_publishers` calls `stop()` once
per occurrence (so a shared publisher is stopped multiple times;
correctness relies on `stop()` being idempotent). -/
theorem c5_publishers_concatenated_not_deduplicated
    (s : PGWALState) (ps₁ ps₂ : List Nat) (x : Nat) :
    (PGWAL.consume (PGWAL.consume s ps₁) ps₂).publishers
      = s.publishers ++ ps₁ ++ ps₂ ∧
    (PGWAL.consume (PGWAL.consume s ps₁) ps₂).publishers.count x
      = s.publishers.count x + ps₁.count x + ps₂.count x ∧
    (PGWAL.stop_publishers s).stopCalls = s.stopCalls ++ s.publishers ∧
    (PGWAL.consume s ps₁).tasks = s.tasks + 1 := by
  simp [PGWAL.consume, PGWAL.stop_publishers, List.count_append, Nat.add_assoc]

/-- **C2 (confirmed).** No `create_on_demand` option exists anywhere in
the code, so the claim's create-then-retry branch can never be taken
(the option is never "set"); on the branch every consumer actually
takes, the claim holds: when the start-of-stream request fails because
the replication slot is missing — `psycopg2.errors.UndefinedObject`, a
`ProgrammingError` that the `except psycopg2.OperationalError` clause
does not catch — the error propagates to the caller as a fatal error
rather than being suppressed, after a single start attempt, with no slot
created and no retry. -/
theorem c2_missing_slot_surfaced_fatal (c : WALConsumer) :
    (c.start_replication CursorStartBehavior.undefinedObject).raisedToCaller = true ∧
    (c.start_replication CursorStartBehavior.undefinedObject).startAttempts = 1 ∧
    (c.start_replication CursorStartBehavior.undefinedObject).slotCreates = 0 ∧
    (c.start_replication CursorStartBehavior.undefinedObject).warned = false := by
  simp [WALConsumer.start_replication]

/-- Helper for C4: with the cancellation signal set, an open cursor and
nothing pending, the consumer loop only waits and makes no publisher or
feedback calls, whatever the fuel. -/
theorem consumeAsyncLoop_no_pending (pubs : List Nat) :
    ∀ fuel, WALConsumer.consumeAsyncLoop pubs true fuel { pending := [], closed := false } = []
  | 0 => rfl
  | fuel + 1 => by
    simp [WALConsumer.consumeAsyncLoop, WALConsumer._msg_n_consumed,
          Cursor.read_message, consumeAsyncLoop_no_pending pubs fuel]

/-- **C4 (confirmed).** For two events pending in arrival order, the
consumer loop dispatches the first event to every attached publisher in
list order, then sends one feedback acknowledgment carrying that event's
position marker, and only then produces the dispatches and feedback of
the second event: the call trace is exactly
`publish(e₁) … publish(e₁), feedback(e₁.data_start), publish(e₂) …
publish(e₂), feedback(e₂.data_start)` (for any extra fuel `k`). -/
theorem c4_dispatches_in_order_then_feedback
    (pubs : List Nat) (m₁ m₂ : ReplMsg) (k : Nat) :
    WALConsumer.consumeAsyncLoop pubs true (k + 2) { pending := [m₁, m₂], closed := false }
      = (pubs.map (fun i => TraceEv.publishCall i m₁) ++ [TraceEv.feedback m₁.data_start])
        ++ (pubs.map (fun i => TraceEv.publishCall i m₂)
            ++ [TraceEv.feedback m₂.data_start]) := by
  show WALConsumer.consumeAsyncLoop pubs true (k + 1 + 1) _ = _
  simp [WALConsumer.consumeAsyncLoop, WALConsumer._msg_n_consumed, Cursor.read_message,
        WALConsumer._consume, consumeAsyncLoop_no_pending]

/-- **C7 (counterexample).** The claim says the consumer waits for up to
*exactly* `max(0, remaining)` time units.  With `status_interval = 10`,
`now = 7.3` and `feedback_timestamp = 0`, `remaining = 2.7`, but the
code passes `max(0, int(timeout))` to `select`, i.e. `2`, not `2.7`. -/
theorem c7_wait_bound_is_truncated :
    ¬ (((WALConsumer._wait_on_repl_cursor (73/10) 0 WaitEvent.timedOut).1 : ℚ)
        = max 0 (WALConsumer._get_cur_timeout (73/10) 0)) := by
  norm_num [WALConsumer._wait_on_repl_cursor, WALConsumer._get_cur_timeout,
            WALConsumer.STATUS_INTERVAL, pyInt]

/-- **C7 (amended).** When no event is pending the consumer waits on the
connection for up to `max(0, int(remaining))` time units — `remaining`
truncated to an integer, so at most `max(0, remaining)` and within one
unit below it — where `remaining = status_interval − (now −
feedback_timestamp)`; given `feedback_timestamp ≤ now` the bound never
exceeds `status_interval`; and an `InterruptedError` during the wait is
swallowed, so the call returns normally and the loop retries. -/
theorem c7_wait_bound_truncation_and_interrupt (now fb : ℚ) (h : fb ≤ now) :
    (((WALConsumer._wait_on_repl_cursor now fb WaitEvent.timedOut).1 : ℚ)
        ≤ max 0 (WALConsumer._get_cur_timeout now fb)) ∧
    (max 0 (WALConsumer._get_cur_timeout now fb)
        < ((WALConsumer._wait_on_repl_cursor now fb WaitEvent.timedOut).1 : ℚ) + 1) ∧
    (((WALConsumer._wait_on_repl_cursor now fb WaitEvent.timedOut).1 : ℚ)
        ≤ WALConsumer.STATUS_INTERVAL) ∧
    (WALConsumer._wait_on_repl_cursor now fb WaitEvent.interruptedSignal).2
        = Except.ok () := by
  have hfst : ∀ e, (WALConsumer._wait_on_repl_cursor now fb e).1
      = max 0 (pyInt (WALConsumer._get_cur_timeout now fb)) := fun _ => rfl
  have hsnd : (WALConsumer._wait_on_repl_cursor now fb WaitEvent.interruptedSignal).2
      = Except.ok () := rfl
  have h10 : WALConsumer._get_cur_timeout now fb ≤ WALConsumer.STATUS_INTERVAL := by
    unfold WALConsumer._get_cur_timeout
    linarith
  rcases le_or_lt 0 (WALConsumer._get_cur_timeout now fb) with h0 | h0
  · have hp : pyInt (WALConsumer._get_cur_timeout now fb)
        = ⌊WALConsumer._get_cur_timeout now fb⌋ := if_pos h0
    have hmaxI : max 0 (pyInt (WALConsumer._get_cur_timeout now fb))
        = ⌊WALConsumer._get_cur_timeout now fb⌋ := by
      rw [hp]
      exact max_eq_right (Int.floor_nonneg.mpr h0)
    have hmaxQ : max 0 (WALConsumer._get_cur_timeout now fb)
        = WALConsumer._get_cur_timeout now fb := max_eq_right h0
    refine ⟨?_, ?_, ?_, hsnd⟩
    · rw [hfst, hmaxI, hmaxQ]
      exact Int.floor_le _
    · rw [hfst, hmaxI, hmaxQ]
      exact Int.lt_floor_add_one _
    · rw [hfst, hmaxI]
      exact le_trans (Int.floor_le _) h10
  · have hp : pyInt (WALConsumer._get_cur_timeout now fb)
        = ⌈WALConsumer._get_cur_timeout now fb⌉ := if_neg (not_le.mpr h0)
    have hceil : ⌈WALConsumer._get_cur_timeout now fb⌉ ≤ 0 := by
      rw [Int.ceil_le]
      push_cast
      linarith
    have hmaxI : max 0 (pyInt (WALConsumer._get_cur_timeout now fb)) = 0 := by
      rw [hp]
      exact max_eq_left hceil
    have hmaxQ : max 0 (WALConsumer._get_cur_timeout now fb) = 0 := max_eq_left h0.le
    refine ⟨?_, ?_, ?_, hsnd⟩
    · rw [hfst, hmaxI, hmaxQ]
      norm_num
    · rw [hfst, hmaxI, hmaxQ]
      norm_num
    · rw [hfst, hmaxI]
      norm_num [WALConsumer.STATUS_INTERVAL]

/-- Witness for C7's amended theorem at `now = 5`, `feedback_timestamp
= 0` (so `remaining = 5`). -/
theorem c7_wait_bound_witness :
    ((0:ℚ) ≤ 5) ∧
    ((((WALConsumer._wait_on_repl_cursor 5 0 WaitEvent.timedOut).1 : ℚ)
        ≤ max 0 (WALConsumer._get_cur_timeout 5 0)) ∧
     (max 0 (WALConsumer._get_cur_timeout 5 0)
        < ((WALConsumer._wait_on_repl_cursor 5 0 WaitEvent.timedOut).1 : ℚ) + 1) ∧
     (((WALConsumer._wait_on_repl_cursor 5 0 WaitEvent.timedOut).1 : ℚ)
        ≤ WALConsumer.STATUS_INTERVAL) ∧
     (WALConsumer._wait_on_repl_cursor 5 0 WaitEvent.interruptedSignal).2
        = Except.ok ()) :=
  ⟨by norm_num, c7_wait_bound_truncation_and_interrupt 5 0 (by norm_num)⟩

/-- **C3 (counterexample).** On a `KafkaPublisher` that has never been
started, `_producer` is still `None`, so `stop()` raises
`AttributeError` from `self._producer.flush(...)` — on the first call
*and* on the second: the claim that stopping twice is safe in every
state, "including never having been started", with the second call a
non-raising no-op, is false. -/
theorem c3_stop_raises_on_unstarted_kafka :
    ¬ ((KafkaPublisher.stop c3FreshKafka).2 = none ∧
       (KafkaPublisher.stop (KafkaPublisher.stop c3FreshKafka).1).2 = none) := by
  decide

/-- Helper for C3: `RabbitPublisher.stop` is idempotent in every state —
the second call finds `running` already false, `_stopping` already true,
and channel/connection either absent, already CLOSING, or untouched
non-open handles, so it changes nothing. -/
theorem rabbit_stop_idempotent (p : RabbitPublisher) :
    RabbitPublisher.stop (RabbitPublisher.stop p) = RabbitPublisher.stop p := by
  rcases p with ⟨ex, rk, conn, ch, del, a, n, mn, stp, run⟩
  rcases ch with _ | ⟨(_|_), (_|_), chp⟩ <;>
    rcases conn with _ | ⟨(_|_), (_|_)⟩ <;> rfl

/-- **C3 (amended).** `stop()` twice produces the same end state as
`stop()` once, and the second call does not raise, for `ShellPublisher`
(in any state) and `RabbitPublisher` (in any state, started or not; its
`stop` never raises at all); for `KafkaPublisher` the same holds *once
the producer exists* (i.e. the publisher has delivered at least once or
otherwise evaluated the `producer` property) — but not in the
never-started state, where `stop` raises (see the counterexample). -/
theorem c3_stop_idempotent_except_unstarted_kafka
    (sp : ShellPublisher) (rp : RabbitPublisher)
    (kp : KafkaPublisher) (pr : KafkaProducer) (h : kp.producer = some pr) :
    (ShellPublisher.stop (ShellPublisher.stop sp) = ShellPublisher.stop sp) ∧
    (RabbitPublisher.stop (RabbitPublisher.stop rp) = RabbitPublisher.stop rp) ∧
    ((KafkaPublisher.stop kp).2 = none) ∧
    (KafkaPublisher.stop (KafkaPublisher.stop kp).1
        = ((KafkaPublisher.stop kp).1, none)) := by
  refine ⟨rfl, rabbit_stop_idempotent rp, ?_, ?_⟩ <;>
    simp [KafkaPublisher.stop, KafkaPublisher.set_running, h]

/-- Witness for C3's amended theorem on concrete publishers. -/
theorem c3_stop_idempotent_witness :
    c3StartedKafka.producer = some c3Producer ∧
    ((ShellPublisher.stop (ShellPublisher.stop c3Shell) = ShellPublisher.stop c3Shell) ∧
     (RabbitPublisher.stop (RabbitPublisher.stop c3Rabbit)
        = RabbitPublisher.stop c3Rabbit) ∧
     ((KafkaPublisher.stop c3StartedKafka).2 = none) ∧
     (KafkaPublisher.stop (KafkaPublisher.stop c3StartedKafka).1
        = ((KafkaPublisher.stop c3StartedKafka).1, none))) :=
  ⟨rfl, c3_stop_idempotent_except_unstarted_kafka c3Shell c3Rabbit c3StartedKafka
          c3Producer rfl⟩

/-- **C6 (confirmed).** For both queue-backed network publishers
(`KafkaPublisher.publish` and `RabbitPublisher.publish`, each guarded by
`ensure_running`): when `is_running()` is false one new daemon worker
thread is started first, when it is true none is; in both cases the call
appends the payload to the class-level delivery queue with a
non-blocking `put_nowait` and returns with the instance — producer,
connection, delivery records — completely untouched, i.e. without
performing any network I/O. -/
theorem c6_publish_enqueues_without_network
    (w : ThreadWorld) (kcls : KafkaClassAttrs) (kp : KafkaPublisher)
    (rcls : RabbitClassAttrs) (rp : RabbitPublisher) (payload : String) :
    ((KafkaPublisher.publish w kcls kp payload).2.1._MSG_QUEUE
        = kcls._MSG_QUEUE ++ [payload]) ∧
    ((KafkaPublisher.publish w kcls kp payload).1.spawned
        = w.spawned + (if kp.running then 0 else 1)) ∧
    ((KafkaPublisher.publish w kcls kp payload).2.2 = kp) ∧
    ((RabbitPublisher.publish w rcls rp payload).2.1._MSG_QUEUE
        = rcls._MSG_QUEUE ++ [payload]) ∧
    ((RabbitPublisher.publish w rcls rp payload).1.spawned
        = w.spawned + (if rp.running then 0 else 1)) ∧
    ((RabbitPublisher.publish w rcls rp payload).2.2 = rp) := by
  cases hk : kp.running <;> cases hr : rp.running <;>
    simp [KafkaPublisher.publish, RabbitPublisher.publish, ensure_running,
          run_publisher_daemon, hk, hr]

/-- **C9 (confirmed).** `_MSG_QUEUE` is a class attribute, so any two
instances of `KafkaPublisher` (resp. `RabbitPublisher`) share the
identical delivery queue: `publish` mutates the class-level queue in a
way independent of which instance it goes through; and a payload
published through `p₁` onto the (empty) shared queue is dequeued by
`p₂`'s worker and delivered to `p₂`'s destination — `p₂`'s topic for
Kafka (one `run` iteration), `p₂`'s exchange/routing key for RabbitMQ
(one `publish_message` on `p₂`'s open channel). -/
theorem c9_class_level_queue_shared
    (p₁ p₂ : KafkaPublisher) (q₁ q₂ : RabbitPublisher)
    (w : ThreadWorld) (kcls : KafkaClassAttrs) (rcls : RabbitClassAttrs)
    (payload : String) (chPub : List (String × String × String)) :
    ((KafkaPublisher.publish w kcls p₁ payload).2.1
        = (KafkaPublisher.publish w kcls p₂ payload).2.1) ∧
    ((RabbitPublisher.publish w rcls q₁ payload).2.1
        = (RabbitPublisher.publish w rcls q₂ payload).2.1) ∧
    (let cls₁ := (KafkaPublisher.publish w { _MSG_QUEUE := [] } p₁ payload).2.1
     let res := KafkaPublisher.run (fun _ => true) 1 cls₁ p₂
     res.1._MSG_QUEUE = [] ∧
     res.2.producer.map KafkaProducer.delivered
        = some ((KafkaPublisher.producerGet p₂).1.delivered
                  ++ [(p₂.destination, payload)])) ∧
    (let rcls₁ := (RabbitPublisher.publish w { _MSG_QUEUE := [] } q₁ payload).2.1
     let q₂' := { q₂ with
                    channel := some { isOpen := true, isClosing := false,
                                      published := chPub } }
     let rres := RabbitPublisher.publish_message rcls₁ q₂'
     rres.1._MSG_QUEUE = [] ∧
     rres.2.channel.map PikaChannel.published
        = some (chPub ++ [(q₂.exchange, q₂.routingKey, payload)])) := by
  cases hp : p₂.producer <;>
    simp [KafkaPublisher.publish, RabbitPublisher.publish, ensure_running,
          run_publisher_daemon, KafkaPublisher.run, KafkaPublisher.runLoop,
          KafkaPublisher._get_message, KafkaPublisher.publish_message,
          KafkaPublisher.producerGet, KafkaPublisher.set_running,
          RabbitPublisher.publish_message, RabbitPublisher._get_message, hp]

/-- Helper for C10: delivering a message touches only the producer and
the `_sent` counter, never the `_running` flag. -/
theorem kafka_publish_message_preserves_running (p : KafkaPublisher) (m : String) :
    (KafkaPublisher.publish_message p m).running = p.running := by
  cases hp : p.producer <;>
    simp [KafkaPublisher.publish_message, KafkaPublisher.producerGet, hp]

/-- Helper for C10: no iteration of the `KafkaPublisher.run` loop —
including the `break` taken when the cancellation signal is observed
cleared — modifies the `_running` flag. -/
theorem kafka_runLoop_preserves_running (exitAt : Nat → Bool) :
    ∀ fuel i cls p,
      ((KafkaPublisher.runLoop exitAt fuel i cls p).2).running = p.running
  | 0, _, _, _ => rfl
  | fuel + 1, i, cls, p => by
    simp only [KafkaPublisher.runLoop]
    cases he : exitAt i with
    | false => simp [he]
    | true =>
      rcases hm : KafkaPublisher._get_message cls with ⟨o, cls'⟩
      cases o with
      | none =>
        simp [he, hm, kafka_runLoop_preserves_running exitAt fuel (i + 1) cls' p]
      | some m =>
        simp [he, hm,
              kafka_runLoop_preserves_running exitAt fuel (i + 1) cls'
                (KafkaPublisher.publish_message p m),
              kafka_publish_message_preserves_running]

/-- **C10 (confirmed).** `KafkaPublisher.run` sets `_running` to true on
entry and its loop never resets it — in particular on the exit path
taken when `EXIT` is observed cleared, `is_running()` still returns true
afterwards (for every exit schedule `exitAt` and fuel); therefore a
subsequent `publish` finds `is_running()` true and `ensure_running`
spawns no new worker thread; only an explicit `stop()` sets the flag to
false. -/
theorem c10_running_flag_survives_loop_exit
    (exitAt : Nat → Bool) (fuel : Nat) (cls : KafkaClassAttrs)
    (p : KafkaPublisher) (w : ThreadWorld) :
    ((KafkaPublisher.run exitAt fuel cls p).2.running = true) ∧
    (ensure_running w (KafkaPublisher.run exitAt fuel cls p).2.running = w) ∧
    ((KafkaPublisher.stop (KafkaPublisher.run exitAt fuel cls p).2).1.running
        = false) := by
  have hrun : (KafkaPublisher.run exitAt fuel cls p).2.running = true := by
    rw [KafkaPublisher.run,
        kafka_runLoop_preserves_running exitAt fuel 0 cls
          (KafkaPublisher.set_running p true)]
    rfl
  refine ⟨hrun, ?_, ?_⟩
  · rw [hrun]
    rfl
  · cases hp : (KafkaPublisher.run exitAt fuel cls p).2.producer <;>
      simp [KafkaPublisher.stop, KafkaPublisher.set_running, hp]

/-- Helper for C8: an element string converts to an enum member lying in
`_WALReplicationActions` exactly when it is one of the four action
strings (`'0'`, `'1'`, `'2'` and `''` convert, but to non-action
members; anything else fails to convert). -/
theorem ofString_mem_actions_iff (piece : String) :
    (∃ a, WALReplicationValues.ofString piece = some a ∧
          a ∈ _WALReplicationActions)
      ↔ piece ∈ ["insert", "update", "delete", "truncate"] := by
  unfold WALReplicationValues.ofString
  split_ifs with h0 h1 h2 h3 h4 h5 h6 h7 <;> simp_all [_WALReplicationActions]

/-- Helper for C8: the comprehension succeeds with all results in the
action set exactly when every element string is one of the four action
strings. -/
theorem parseActions_actions_iff : ∀ pieces : List String,
    (∃ vs, parseActions pieces = some vs ∧ ∀ a ∈ vs, a ∈ _WALReplicationActions)
      ↔ ∀ piece ∈ pieces, piece ∈ ["insert", "update", "delete", "truncate"]
  | [] => by simp [parseActions]
  | piece :: rest => by
    have ih := parseActions_actions_iff rest
    constructor
    · rintro ⟨vs, hvs, hmem⟩
      cases hop : WALReplicationValues.ofString piece with
      | none => simp [parseActions, hop] at hvs
      | some a =>
        cases hpr : parseActions rest with
        | none => simp [parseActions, hop, hpr] at hvs
        | some as =>
          rw [show parseActions (piece :: rest) = some (a :: as) by
                simp [parseActions, hop, hpr]] at hvs
          obtain rfl : a :: as = vs := Option.some.inj hvs
          intro q hq
          rcases List.mem_cons.mp hq with rfl | hq
          · exact (ofString_mem_actions_iff q).mp
              ⟨a, hop, hmem a (List.mem_cons_self a as)⟩
          · exact ih.mp ⟨as, hpr, fun b hb => hmem b (List.mem_cons_of_mem a hb)⟩ q hq
    · intro hall
      obtain ⟨a, hop, ha⟩ := (ofString_mem_actions_iff piece).mpr
        (hall piece (List.mem_cons_self piece rest))
      obtain ⟨as, hpr, has⟩ := ih.mpr fun q hq => hall q (List.mem_cons_of_mem _ hq)
      refine ⟨a :: as, by simp [parseActions, hop, hpr], ?_⟩
      intro b hb
      rcases List.mem_cons.mp hb with rfl | hb
      · exact ha
      · exact has b hb

/-- **C8 (confirmed).** Constructing `WALReplicationOpts` fails
validation if and only if the supplied `actions` value — a member list,
or a comma-separated string whose trimmed elements are looked up in the
enum — contains an element outside `{insert, update, delete, truncate}`,
or the supplied `format-version` is neither `'1'` nor `'2'`; a valid
`actions` value is accepted as given — no silent defaulting — and
serialized to the comma-joined string of the given actions. -/
theorem c8_actions_and_format_version_validation
    (vs : List WALReplicationValues) (s : String) (v : WALReplicationValues) :
    ((∃ r, WALReplicationOpts.validate_actions (Sum.inl vs) = Except.ok r)
        ↔ ∀ a ∈ vs, a ∈ _WALReplicationActions) ∧
    ((∀ a ∈ vs, a ∈ _WALReplicationActions) →
      WALReplicationOpts.validate_actions (Sum.inl vs)
        = Except.ok (String.intercalate ", " (vs.map WALReplicationValues.val))) ∧
    ((∃ r, WALReplicationOpts.validate_actions (Sum.inr s) = Except.ok r)
        ↔ ∀ piece ∈ actionPieces s,
            piece ∈ ["insert", "update", "delete", "truncate"]) ∧
    ((∃ r, WALReplicationOpts.validate_format_version v = Except.ok r)
        ↔ (v = WALReplicationValues.one ∨ v = WALReplicationValues.two)) := by
  have hcond : (vs.all (fun a => decide (a ∈ _WALReplicationActions)) = true)
      ↔ (∀ a ∈ vs, a ∈ _WALReplicationActions) := by
    simp [List.all_eq_true]
  refine ⟨?_, ?_, ?_, ?_⟩
  · unfold WALReplicationOpts.validate_actions
    dsimp only
    split_ifs with h
    · exact iff_of_true ⟨_, rfl⟩ (hcond.mp h)
    · simp only [reduceCtorEq, exists_false, false_iff]
      exact fun hall => h (hcond.mpr hall)
  · intro hall
    unfold WALReplicationOpts.validate_actions
    dsimp only
    rw [if_pos (hcond.mpr hall)]
  · cases hp : parseActions (actionPieces s) with
    | none =>
      unfold WALReplicationOpts.validate_actions
      dsimp only
      rw [hp]
      dsimp only
      simp only [reduceCtorEq, exists_false, false_iff]
      intro hall
      obtain ⟨ws, hws, _⟩ := (parseActions_actions_iff (actionPieces s)).mpr hall
      rw [hp] at hws
      exact Option.noConfusion hws
    | some ws =>
      have hws : (ws.all (fun a => decide (a ∈ _WALReplicationActions)) = true)
          ↔ (∀ a ∈ ws, a ∈ _WALReplicationActions) := by
        simp [List.all_eq_true]
      unfold WALReplicationOpts.validate_actions
      dsimp only
      rw [hp]
      dsimp only
      split_ifs with h
      · exact iff_of_true ⟨_, rfl⟩
          ((parseActions_actions_iff (actionPieces s)).mp ⟨ws, hp, hws.mp h⟩)
      · simp only [reduceCtorEq, exists_false, false_iff]
        intro hall
        obtain ⟨ws', hws', hmem'⟩ := (parseActions_actions_iff (actionPieces s)).mpr hall
        rw [hp] at hws'
        obtain rfl : ws = ws' := Option.some.inj hws'
        exact h (hws.mpr hmem')
  · unfold WALReplicationOpts.validate_format_version
    split_ifs with h <;> simp [h]
